import Mathlib

/-!
Verification of the usage-gating state machine of the Rankonfirstpage app.

The app keeps all mutable state in the top-level `App` component:
current page, active optimizer tab, generation count, paywall-modal flag,
copy-message flag, premium flag, and payment-success-message flag.
Event handlers (`handleGenerationAttempt`, `handlePaymentSuccess`,
navigation handlers, the PayPal callbacks) are modelled as pure
transition functions on an explicit state record.
-/

/-- The `Page` union type: which of the three views is shown. -/
inductive Page where
  | home
  | optimizer
  | pricing
deriving DecidableEq, Repr

/-- The `OptimizerTab` union type: which optimizer tab is active. -/
inductive OptimizerTab where
  | product
  | category
deriving DecidableEq, Repr

/-- The `App` component's state: one field per `useState` hook, in source
order. -/
structure AppState where
  currentPage : Page
  initialTab : OptimizerTab
  generationCount : Nat
  showPaywall : Bool
  showCopyMessage : Bool
  isPremium : Bool
  showPaymentSuccessMessage : Bool
deriving DecidableEq, Repr

/-- `GENERATION_LIMIT` from constants: the free-tier generation cap. -/
def GENERATION_LIMIT : Nat := 20

/-- The initial state of a fresh session: every `useState` initializer of
the `App` component (`'home'`, `'product'`, `0`, `false`, `false`, `false`,
`false`). -/
def initState : AppState :=
  { currentPage := Page.home
    initialTab := OptimizerTab.product
    generationCount := 0
    showPaywall := false
    showCopyMessage := false
    isPremium := false
    showPaymentSuccessMessage := false }

/-- A concrete free-tier state at the generation limit. -/
def stateAtLimit : AppState := { initState with generationCount := 20 }

/-- A concrete free-tier state on the optimizer page at the limit. -/
def optimizerAtLimit : AppState :=
  { initState with currentPage := Page.optimizer, generationCount := 20 }

/-- A concrete premium state past the limit. -/
def premiumAt25 : AppState :=
  { initState with isPremium := true, generationCount := 25 }

/-- A concrete premium state with count 5. -/
def premiumAt5 : AppState :=
  { initState with isPremium := true, generationCount := 5 }

/-- `handleGenerationAttempt` of the full app: if premium, return true with
no state change; else if the count has reached `GENERATION_LIMIT`, set the
paywall flag and return false; else increment the count and return true.
Returns the boolean result paired with the updated state. -/
def handleGenerationAttempt (s : AppState) : Bool × AppState :=
  if s.isPremium then (true, s)
  else if s.generationCount ≥ GENERATION_LIMIT then
    (false, { s with showPaywall := true })
  else
    (true, { s with generationCount := s.generationCount + 1 })

/-- `handlePaymentSuccess`: set the premium flag, route to the optimizer
page, and show the transient payment-success message (its 3-second
auto-dismiss timeout is a separate event, `Event.dismissPaymentSuccessMessage`). -/
def handlePaymentSuccess (s : AppState) : AppState :=
  { s with isPremium := true
           currentPage := Page.optimizer
           showPaymentSuccessMessage := true }

/-- `handleNavigateToOptimizer`: set the requested tab and route to the
optimizer page. -/
def handleNavigateToOptimizer (tab : OptimizerTab) (s : AppState) : AppState :=
  { s with initialTab := tab, currentPage := Page.optimizer }

/-- `handleNavigateHome`: route to the home page. -/
def handleNavigateHome (s : AppState) : AppState :=
  { s with currentPage := Page.home }

/-- `handleNavigateToPricing`: route to the pricing page. -/
def handleNavigateToPricing (s : AppState) : AppState :=
  { s with currentPage := Page.pricing }

/-- `handleCopyToClipboard`: show the copy message (its 2-second
auto-dismiss timeout is a separate event). -/
def handleCopyToClipboard (s : AppState) : AppState :=
  { s with showCopyMessage := true }

/-- The PayPal SDK outcome for one transaction: `onApprove` or `onError`
(exactly one is emitted). -/
inductive PaypalOutcome where
  | approved
  | err
deriving DecidableEq, Repr

/-- The `PayPalButton` callbacks: `onApprove` captures the order and calls
`onSuccess` (wired to `handlePaymentSuccess`); `onError` only logs
(`console.error("PayPal SDK Error:", err)`) and touches no state. -/
def handlePaypalOutcome : PaypalOutcome → AppState → AppState
  | PaypalOutcome.approved, s => handlePaymentSuccess s
  | PaypalOutcome.err, s => s

/-- Every user or callback event that mutates the `App` component's state,
one constructor per handler or inline callback in the source. -/
inductive Event where
  | navigateToOptimizer (tab : OptimizerTab)
  | navigateHome
  | navigateToPricing
  | paymentSuccess
  | paymentError
  | generationAttempt
  | paywallClose
  | paywallUpgrade
  | copyToClipboard
  | dismissCopyMessage
  | dismissPaymentSuccessMessage
deriving DecidableEq, Repr

/-- One step of the app's event loop: dispatch an event to its handler.
`paywallClose` is the modal's `onClose` (`setShowPaywall(false)`);
`paywallUpgrade` is its `onUpgrade` (`setShowPaywall(false)` then
`handleNavigateToPricing()`); the two dismiss events are the `setTimeout`
callbacks. -/
def step : Event → AppState → AppState
  | Event.navigateToOptimizer tab, s => handleNavigateToOptimizer tab s
  | Event.navigateHome, s => handleNavigateHome s
  | Event.navigateToPricing, s => handleNavigateToPricing s
  | Event.paymentSuccess, s => handlePaymentSuccess s
  | Event.paymentError, s => handlePaypalOutcome PaypalOutcome.err s
  | Event.generationAttempt, s => (handleGenerationAttempt s).snd
  | Event.paywallClose, s => { s with showPaywall := false }
  | Event.paywallUpgrade, s =>
      handleNavigateToPricing { s with showPaywall := false }
  | Event.copyToClipboard, s => handleCopyToClipboard s
  | Event.dismissCopyMessage, s => { s with showCopyMessage := false }
  | Event.dismissPaymentSuccessMessage, s =>
      { s with showPaymentSuccessMessage := false }

/-- Run a sequence of events from a state. -/
def runEvents (es : List Event) (s : AppState) : AppState :=
  es.foldl (fun t e => step e t) s

/-- Run `n` consecutive generation attempts, collecting each boolean
result in order. -/
def runAttempts : Nat → AppState → List Bool × AppState
  | 0, s => ([], s)
  | n + 1, s =>
    let r := handleGenerationAttempt s
    let rest := runAttempts n r.snd
    (r.fst :: rest.fst, rest.snd)

/-- Claim C1: `handleGenerationAttempt` returns true iff the premium flag
is set or the generation count is strictly below `GENERATION_LIMIT`. -/
theorem handleGenerationAttempt_true_iff (s : AppState) :
    (handleGenerationAttempt s).fst = true ↔
      (s.isPremium = true ∨ s.generationCount < GENERATION_LIMIT) := by
  unfold handleGenerationAttempt
  by_cases hp : s.isPremium = true
  · simp [hp]
  · by_cases hc : s.generationCount ≥ GENERATION_LIMIT
    · simp [hp, hc, Nat.not_lt.mpr hc]
    · simp [hp, hc, Nat.lt_of_not_le hc]

/-- Helper: a generation attempt by a non-premium user below the limit
succeeds and only increments the count. -/
theorem handleGenerationAttempt_free_ok (s : AppState)
    (hp : s.isPremium = false) (hc : s.generationCount < GENERATION_LIMIT) :
    handleGenerationAttempt s =
      (true, { s with generationCount := s.generationCount + 1 }) := by
  unfold handleGenerationAttempt
  simp [hp, Nat.not_le.mpr hc]

/-- Helper: a generation attempt by a non-premium user at or over the limit
fails and only sets the paywall flag. -/
theorem handleGenerationAttempt_free_blocked (s : AppState)
    (hp : s.isPremium = false) (hc : GENERATION_LIMIT ≤ s.generationCount) :
    handleGenerationAttempt s = (false, { s with showPaywall := true }) := by
  unfold handleGenerationAttempt
  simp [hp, hc]

/-- Helper: from a non-premium state with room for `n` more free attempts,
`n` attempts all return true and add exactly `n` to the count, touching no
other field. -/
theorem runAttempts_free (n : Nat) : ∀ s : AppState, s.isPremium = false →
    s.generationCount + n ≤ GENERATION_LIMIT →
    runAttempts n s =
      (List.replicate n true,
       { s with generationCount := s.generationCount + n }) := by
  induction n with
  | zero => intro s _ _; rfl
  | succ n ih =>
    intro s hp hc
    have hlt : s.generationCount < GENERATION_LIMIT := by omega
    have h1 := handleGenerationAttempt_free_ok s hp hlt
    have h2 := ih { s with generationCount := s.generationCount + 1 }
      hp (by simp; omega)
    simp only [runAttempts, h1, h2, List.replicate]
    have harith : s.generationCount + 1 + n = s.generationCount + (n + 1) := by
      omega
    rw [harith]

/-- Claim C2: with the premium flag off and the count at the limit, a
generation attempt returns false and leaves the count at 20; in
particular, after the 20 permitted attempts of a fresh session (all of
which returned true) the 21st attempt returns false. -/
theorem handleGenerationAttempt_at_limit (s : AppState)
    (hp : s.isPremium = false) (hc : s.generationCount = GENERATION_LIMIT) :
    ((handleGenerationAttempt s).fst = false ∧
      (handleGenerationAttempt s).snd.generationCount = GENERATION_LIMIT) ∧
    ((runAttempts GENERATION_LIMIT initState).fst =
        List.replicate GENERATION_LIMIT true ∧
      (handleGenerationAttempt
        (runAttempts GENERATION_LIMIT initState).snd).fst = false) := by
  refine ⟨?_, by decide⟩
  rw [handleGenerationAttempt_free_blocked s hp (le_of_eq hc.symm)]
  exact ⟨rfl, hc⟩

/-- Witness for C2: concrete non-premium state with count 20. -/
theorem handleGenerationAttempt_at_limit_witness :
    ((handleGenerationAttempt stateAtLimit).fst = false ∧
      (handleGenerationAttempt stateAtLimit).snd.generationCount =
        GENERATION_LIMIT) ∧
    ((runAttempts GENERATION_LIMIT initState).fst =
        List.replicate GENERATION_LIMIT true ∧
      (handleGenerationAttempt
        (runAttempts GENERATION_LIMIT initState).snd).fst = false) :=
  handleGenerationAttempt_at_limit stateAtLimit rfl rfl

/-- Claim C3: from a fresh session (count 0, premium off), any `n < 20`
consecutive generation attempts each return true and leave the count at
`n`. -/
theorem runAttempts_fresh (n : Nat) (h : n < GENERATION_LIMIT) :
    (runAttempts n initState).fst = List.replicate n true ∧
    (runAttempts n initState).snd.generationCount = n := by
  have := runAttempts_free n initState rfl
    (by simp [initState]; omega)
  rw [this]
  refine ⟨rfl, ?_⟩
  show initState.generationCount + n = n
  simp [initState]

/-- Witness for C3: 19 attempts from a fresh session. -/
theorem runAttempts_fresh_witness :
    (runAttempts 19 initState).fst = List.replicate 19 true ∧
    (runAttempts 19 initState).snd.generationCount = 19 :=
  runAttempts_fresh 19 (by decide)

/-- Claim C4: with the premium flag on, a generation attempt returns true
and the whole state (count, premium flag, page, tab, paywall flag - every
field) is unchanged, whatever the count. -/
theorem handleGenerationAttempt_premium (s : AppState)
    (hp : s.isPremium = true) :
    (handleGenerationAttempt s).fst = true ∧
    (handleGenerationAttempt s).snd = s := by
  unfold handleGenerationAttempt
  simp [hp]

/-- Witness for C4: premium state with count 25, past the limit. -/
theorem handleGenerationAttempt_premium_witness :
    (handleGenerationAttempt premiumAt25).fst = true ∧
    (handleGenerationAttempt premiumAt25).snd = premiumAt25 :=
  handleGenerationAttempt_premium premiumAt25 rfl

/-- Claim C5: `handlePaymentSuccess` sets the premium flag and routes to
the optimizer page, and it is idempotent: a second call produces the same
state (premium stays true, page stays optimizer); as a total function it
cannot throw. -/
theorem handlePaymentSuccess_sets_and_idempotent (s : AppState) :
    (handlePaymentSuccess s).isPremium = true ∧
    (handlePaymentSuccess s).currentPage = Page.optimizer ∧
    handlePaymentSuccess (handlePaymentSuccess s) = handlePaymentSuccess s := by
  unfold handlePaymentSuccess
  exact ⟨rfl, rfl, rfl⟩

/-- Helper: one event step never decreases the generation count and never
clears the premium flag. -/
theorem step_mono (e : Event) (s : AppState) :
    s.generationCount ≤ (step e s).generationCount ∧
    (s.isPremium = true → (step e s).isPremium = true) := by
  cases e <;>
    simp [step, handleNavigateToOptimizer, handleNavigateHome,
      handleNavigateToPricing, handlePaymentSuccess, handlePaypalOutcome,
      handleCopyToClipboard, handleGenerationAttempt]
  by_cases hp : s.isPremium = true
  · simp [hp]
  · by_cases hc : s.generationCount ≥ GENERATION_LIMIT
    · simp [hp, hc]
    · simp [hp, hc]

/-- Helper: over any event sequence the generation count never decreases
and the premium flag never reverts. -/
theorem runEvents_mono (es : List Event) : ∀ s : AppState,
    s.generationCount ≤ (runEvents es s).generationCount ∧
    (s.isPremium = true → (runEvents es s).isPremium = true) := by
  induction es with
  | nil => intro s; exact ⟨le_refl _, fun h => h⟩
  | cons e es ih =>
    intro s
    have h1 := step_mono e s
    have h2 := ih (step e s)
    exact ⟨le_trans h1.1 h2.1, fun h => h2.2 (h1.2 h)⟩

/-- Claim C6: the generation count starts at 0 and no event sequence
decreases it, and the premium flag starts false and, once true, no event
sequence reverts it. -/
theorem session_invariants (es : List Event) (s : AppState) :
    (initState.generationCount = 0 ∧ initState.isPremium = false) ∧
    s.generationCount ≤ (runEvents es s).generationCount ∧
    (s.isPremium = true → (runEvents es s).isPremium = true) :=
  ⟨⟨rfl, rfl⟩, runEvents_mono es s⟩

/-- Witness for C6: a concrete event sequence from a premium state with
count 5. -/
theorem session_invariants_witness :
    ((initState.generationCount = 0 ∧ initState.isPremium = false) ∧
      premiumAt5.generationCount ≤
        (runEvents
          [Event.generationAttempt, Event.navigateHome, Event.paymentError]
          premiumAt5).generationCount ∧
      (premiumAt5.isPremium = true →
        (runEvents
          [Event.generationAttempt, Event.navigateHome, Event.paymentError]
          premiumAt5).isPremium = true)) :=
  session_invariants
    [Event.generationAttempt, Event.navigateHome, Event.paymentError]
    premiumAt5

/-- Counterexample for C7: a blocked attempt does not redirect the current
page to the pricing/paywall view. From the optimizer page with premium off
and count 20, the attempt returns false yet `currentPage` is still
`optimizer`, not `pricing`. -/
theorem blocked_attempt_no_redirect_counterexample :
    (handleGenerationAttempt optimizerAtLimit).fst = false ∧
    (handleGenerationAttempt optimizerAtLimit).snd.currentPage ≠
      Page.pricing := by
  decide

/-- Claim C7 (amended): whenever a generation attempt is not permitted, the
paywall-modal flag `showPaywall` is set true (the paywall is displayed as a
modal overlay), while `currentPage` itself is unchanged. -/
theorem blocked_attempt_shows_paywall (s : AppState)
    (h : (handleGenerationAttempt s).fst = false) :
    (handleGenerationAttempt s).snd.showPaywall = true ∧
    (handleGenerationAttempt s).snd.currentPage = s.currentPage := by
  unfold handleGenerationAttempt at h ⊢
  by_cases hp : s.isPremium = true
  · simp [hp] at h
  · by_cases hc : s.generationCount ≥ GENERATION_LIMIT
    · simp [hp, hc]
    · simp [hp, hc] at h

/-- Witness for C7 (amended): a blocked attempt at count 20 from the
optimizer page. -/
theorem blocked_attempt_shows_paywall_witness :
    (handleGenerationAttempt optimizerAtLimit).snd.showPaywall = true ∧
    (handleGenerationAttempt optimizerAtLimit).snd.currentPage =
      optimizerAtLimit.currentPage :=
  blocked_attempt_shows_paywall optimizerAtLimit (by decide)

/-- JS `String.prototype.trim()` modelled over the character list: strip
leading and trailing whitespace. `!field.trim()` in the source is true
exactly when the trimmed field is the empty string. -/
def jsTrim (s : String) : String :=
  ⟨((s.data.dropWhile Char.isWhitespace).reverse.dropWhile
      Char.isWhitespace).reverse⟩

/-- How a form submission resolves: rejected by the empty-field check,
blocked by the paywall gate, or forwarded to the content generator (the
external generator call itself is out of scope). -/
inductive SubmitOutcome where
  | validationError
  | blocked
  | generated
deriving DecidableEq, Repr

/-- The observable result of a `handleSubmit` run: its outcome, whether
`onGenerationAttempt` was invoked, and the resulting app state. -/
structure SubmitResult where
  outcome : SubmitOutcome
  gateConsulted : Bool
  state : AppState
deriving DecidableEq, Repr

/-- `ProductOptimizer`'s `handleSubmit`: if the trimmed product name or the
trimmed keywords are empty (JS falsy), set an error message and return
before calling `onGenerationAttempt`; otherwise consult the gate and, if
permitted, forward the request to the content generator. -/
def productHandleSubmit (productName keywords : String) (s : AppState) :
    SubmitResult :=
  if jsTrim productName = "" ∨ jsTrim keywords = "" then
    ⟨SubmitOutcome.validationError, false, s⟩
  else
    let r := handleGenerationAttempt s
    if r.fst then ⟨SubmitOutcome.generated, true, r.snd⟩
    else ⟨SubmitOutcome.blocked, true, r.snd⟩

/-- `CategoryOptimizer`'s `handleSubmit`: if the trimmed category keywords
or the trimmed product names are empty (JS falsy), set an error message and
return before calling `onGenerationAttempt`; otherwise consult the gate
and, if permitted, forward the request to the content generator. -/
def categoryHandleSubmit (categoryKeywords productNames : String)
    (s : AppState) : SubmitResult :=
  if jsTrim categoryKeywords = "" ∨ jsTrim productNames = "" then
    ⟨SubmitOutcome.validationError, false, s⟩
  else
    let r := handleGenerationAttempt s
    if r.fst then ⟨SubmitOutcome.generated, true, r.snd⟩
    else ⟨SubmitOutcome.blocked, true, r.snd⟩

/-- Claim C8: a submission with an empty or whitespace-only required field
(product name or keywords for a product; category keywords or product
names for a category) never consults the paywall gate and leaves the app
state - in particular the generation count - unchanged. -/
theorem submit_empty_field_skips_gate
    (pn kw ck pns : String) (s : AppState) :
    (jsTrim pn = "" ∨ jsTrim kw = "" →
      productHandleSubmit pn kw s =
        ⟨SubmitOutcome.validationError, false, s⟩) ∧
    (jsTrim ck = "" ∨ jsTrim pns = "" →
      categoryHandleSubmit ck pns s =
        ⟨SubmitOutcome.validationError, false, s⟩) := by
  constructor
  · intro h
    unfold productHandleSubmit
    simp [h]
  · intro h
    unfold categoryHandleSubmit
    simp [h]

/-- Witness for C8: a whitespace-only product name and an empty category
keywords field, each from a fresh state. -/
theorem submit_empty_field_skips_gate_witness :
    productHandleSubmit " " "tea" initState =
      ⟨SubmitOutcome.validationError, false, initState⟩ ∧
    categoryHandleSubmit "" "Green Tea" initState =
      ⟨SubmitOutcome.validationError, false, initState⟩ :=
  ⟨(submit_empty_field_skips_gate " " "tea" "" "Green Tea" initState).1
      (Or.inl (by decide)),
    (submit_empty_field_skips_gate " " "tea" "" "Green Tea" initState).2
      (Or.inl (by decide))⟩

/-- Claim C9: the PayPal `onError` outcome causes no state change beyond
logging: premium flag, generation count, current page, current tab - the
whole state - are unchanged, so the user can retry. -/
theorem paymentError_no_state_change (s : AppState) :
    handlePaypalOutcome PaypalOutcome.err s = s ∧
    (handlePaypalOutcome PaypalOutcome.err s).isPremium = s.isPremium ∧
    (handlePaypalOutcome PaypalOutcome.err s).generationCount =
      s.generationCount ∧
    (handlePaypalOutcome PaypalOutcome.err s).currentPage = s.currentPage ∧
    (handlePaypalOutcome PaypalOutcome.err s).initialTab = s.initialTab :=
  ⟨rfl, rfl, rfl, rfl, rfl⟩

/-- The state of the reduced `src/App.tsx` component: its five `useState`
hooks (no premium flag, no payment-success message). -/
structure SrcAppState where
  currentPage : Page
  initialTab : OptimizerTab
  generationCount : Nat
  showPaywall : Bool
  showCopyMessage : Bool
deriving DecidableEq, Repr

/-- `handleGenerationAttempt` of `src/App.tsx`: no premium branch; if the
count has reached `GENERATION_LIMIT`, set the paywall flag and return
false; else increment the count and return true. -/
def srcHandleGenerationAttempt (s : SrcAppState) : Bool × SrcAppState :=
  if s.generationCount ≥ GENERATION_LIMIT then
    (false, { s with showPaywall := true })
  else
    (true, { s with generationCount := s.generationCount + 1 })

/-- Project the full app's state onto the fields `src/App.tsx` has. -/
def toSrc (s : AppState) : SrcAppState :=
  { currentPage := s.currentPage
    initialTab := s.initialTab
    generationCount := s.generationCount
    showPaywall := s.showPaywall
    showCopyMessage := s.showCopyMessage }

/-- Claim C10: on every state with the premium flag off, the `src/App.tsx`
gate and the full app's gate agree: same boolean result, same generation
count update, and same paywall signal (the projections of the resulting
states coincide). -/
theorem srcHandleGenerationAttempt_refines (s : AppState)
    (hp : s.isPremium = false) :
    (srcHandleGenerationAttempt (toSrc s)).fst =
      (handleGenerationAttempt s).fst ∧
    (srcHandleGenerationAttempt (toSrc s)).snd =
      toSrc (handleGenerationAttempt s).snd := by
  unfold srcHandleGenerationAttempt handleGenerationAttempt toSrc
  by_cases hc : s.generationCount ≥ GENERATION_LIMIT
  · simp [hp, hc]
  · simp [hp, hc]

/-- Witness for C10: a free-tier state on the optimizer page at the
limit. -/
theorem srcHandleGenerationAttempt_refines_witness :
    (srcHandleGenerationAttempt (toSrc optimizerAtLimit)).fst =
      (handleGenerationAttempt optimizerAtLimit).fst ∧
    (srcHandleGenerationAttempt (toSrc optimizerAtLimit)).snd =
      toSrc (handleGenerationAttempt optimizerAtLimit).snd :=
  srcHandleGenerationAttempt_refines optimizerAtLimit rfl
